import Mathlib

/-!
Verification of the EVTX chunk decoding core (`evtx_chunk.rs`,
`template_cache.rs`, `model/deserialized.rs`).

Bytes are modelled as natural numbers (each `< 256` where it matters),
byte buffers as `List Nat`, machine integers as `Nat`.  Fallible
operations return `Except`.  Components of the repository that live
outside the provided core sources (the BinXML token decoder, the record
header parser, the `crc` crate) are modelled from the specification and
are marked as such in their doc comments.
-/

namespace Evtx

/-- Modelled from the spec: the external `crc` crate's `crc32::checksum_ieee`.
One reflected CRC-32 bit step with the IEEE polynomial `0xEDB88320`. -/
def crc32Bits : Nat → Nat → Nat
  | 0, crc => crc
  | n + 1, crc =>
      crc32Bits n (if crc % 2 = 1 then Nat.xor (crc / 2) 0xEDB88320 else crc / 2)

/-- Modelled from the spec: CRC32 with the IEEE polynomial (reflected
algorithm, initial value `0xFFFFFFFF`, final xor `0xFFFFFFFF`), as the
`crc` crate computes it for `checksum_ieee`. -/
def crc32_ieee (bytes : List Nat) : Nat :=
  Nat.xor
    (bytes.foldl (fun crc byte => crc32Bits 8 (Nat.xor crc (byte % 256))) 0xFFFFFFFF)
    0xFFFFFFFF

/-- The contiguous byte range `[lo, hi)` of a buffer, read by index
(out-of-range indices default to `0`; theorems using this carry bounds). -/
def byteRange (d : List Nat) (lo hi : Nat) : List Nat :=
  (List.range' lo (hi - lo)).map (fun i => d.getD i 0)

/-- `EVTX_CHUNK_HEADER_SIZE` from `evtx_chunk.rs`. -/
def EVTX_CHUNK_HEADER_SIZE : Nat := 512

/-- Little-endian read of `n` bytes of `d` starting at `off`. -/
def readLE (d : List Nat) (off : Nat) : Nat → Nat
  | 0 => 0
  | n + 1 => d.getD off 0 + 256 * readLE d (off + 1) n

/-- `EvtxChunkHeader` from `evtx_chunk.rs`. -/
structure EvtxChunkHeader where
  first_event_record_number : Nat
  last_event_record_number : Nat
  first_event_record_id : Nat
  last_event_record_id : Nat
  header_size : Nat
  last_event_record_data_offset : Nat
  free_space_offset : Nat
  events_checksum : Nat
  header_chunk_checksum : Nat
  strings_offsets : List Nat
  template_offsets : List Nat
  deriving Repr, DecidableEq

/-- Error cases of the chunk construction path (`err` module is outside
src; the cases are the ones `evtx_chunk.rs` raises). -/
inductive ChunkError where
  /-- A read past the end of the 512-byte header region. -/
  | truncatedHeader : ChunkError
  /-- `err::InvalidEvtxChunkMagic { magic }`. -/
  | invalidMagic (magic : List Nat) : ChunkError
  /-- `err::InvalidChunkChecksum`. -/
  | invalidChunkChecksum : ChunkError
  deriving Repr, DecidableEq

/-- The chunk magic, ASCII `ElfChnk` followed by a NUL byte
(`b"ElfChnk\x00"` in `EvtxChunkHeader::from_reader`). -/
def evtxChunkMagic : List Nat := [0x45, 0x6C, 0x66, 0x43, 0x68, 0x6E, 0x6B, 0x00]

/-- `EvtxChunkHeader::from_reader`: reads the 8 magic bytes (failing with
`InvalidEvtxChunkMagic` when they differ from the signature), then the
record-number/record-id counters, four `u32` fields, skips 64 reserved
bytes and 4 flag bytes, reads the header checksum and the 64 + 32 offset
tables.  A short read anywhere is a truncation failure; all reads are
little-endian at the fixed offsets induced by the sequential reader. -/
def EvtxChunkHeader.from_reader (d : List Nat) : Except ChunkError EvtxChunkHeader :=
  if d.length < 8 then Except.error ChunkError.truncatedHeader
  else if d.take 8 ≠ evtxChunkMagic then Except.error (ChunkError.invalidMagic (d.take 8))
  else if d.length < EVTX_CHUNK_HEADER_SIZE then Except.error ChunkError.truncatedHeader
  else Except.ok
    { first_event_record_number := readLE d 8 8
      last_event_record_number := readLE d 16 8
      first_event_record_id := readLE d 24 8
      last_event_record_id := readLE d 32 8
      header_size := readLE d 40 4
      last_event_record_data_offset := readLE d 44 4
      free_space_offset := readLE d 48 4
      events_checksum := readLE d 52 4
      header_chunk_checksum := readLE d 124 4
      strings_offsets := (List.range 64).map (fun i => readLE d (128 + 4 * i) 4)
      template_offsets := (List.range 32).map (fun i => readLE d (384 + 4 * i) 4) }

/-- `EvtxChunkData` from `evtx_chunk.rs`: the owned raw bytes plus the
parsed header. -/
structure EvtxChunkData where
  header : EvtxChunkHeader
  data : List Nat
  deriving Repr, DecidableEq

/-- `EvtxChunkData::validate_data_checksum`: CRC32 over
`data[EVTX_CHUNK_HEADER_SIZE..free_space_offset]` compared against the
header's `events_checksum`. -/
def EvtxChunkData.validate_data_checksum (c : EvtxChunkData) : Bool :=
  crc32_ieee ((c.data.take c.header.free_space_offset).drop EVTX_CHUNK_HEADER_SIZE)
    == c.header.events_checksum

/-- `EvtxChunkData::validate_header_checksum`: CRC32 over
`data[..120]` chained with `data[128..512]`, compared against the
header's `header_chunk_checksum`. -/
def EvtxChunkData.validate_header_checksum (c : EvtxChunkData) : Bool :=
  crc32_ieee (c.data.take 120 ++ (c.data.take 512).drop 128)
    == c.header.header_chunk_checksum

/-- `EvtxChunkData::validate_checksum`. -/
def EvtxChunkData.validate_checksum (c : EvtxChunkData) : Bool :=
  c.validate_header_checksum && c.validate_data_checksum

/-- `EvtxChunkData::new`: parse the header from the raw bytes (the magic
check inside `from_reader` always runs), then optionally enforce the
checksums when `validate_checksum` is requested. -/
def EvtxChunkData.new (data : List Nat) (validate_checksum : Bool) :
    Except ChunkError EvtxChunkData :=
  match EvtxChunkHeader.from_reader data with
  | Except.error e => Except.error e
  | Except.ok header =>
      let chunk : EvtxChunkData := { header := header, data := data }
      if validate_checksum && !chunk.validate_checksum then
        Except.error ChunkError.invalidChunkChecksum
      else Except.ok chunk

/-- State-passing view of the `&self` method `validate_data_checksum`:
the source body only reads fields, so the receiver is returned
unchanged as the post-state. -/
def EvtxChunkData.validate_data_checksumSt (c : EvtxChunkData) : Bool × EvtxChunkData :=
  (c.validate_data_checksum, c)

/-- State-passing view of the `&self` method `validate_header_checksum`. -/
def EvtxChunkData.validate_header_checksumSt (c : EvtxChunkData) : Bool × EvtxChunkData :=
  (c.validate_header_checksum, c)

/-- State-passing view of the `&self` method `validate_checksum`. -/
def EvtxChunkData.validate_checksumSt (c : EvtxChunkData) : Bool × EvtxChunkData :=
  (c.validate_checksum, c)

/-- `BinXMLTemplateDefinition` from `model/deserialized.rs` (the template
cache refers to it as `BinXMLTemplateDefinitionData`).  The token type is
a parameter `τ` because the tokens carry values and names whose decoders
are outside this core; the GUID is abstracted as a number. -/
structure BinXMLTemplateDefinition (τ : Type) where
  next_template_offset : Nat
  template_guid : Nat
  data_size : Nat
  tokens : List τ
  deriving Repr, DecidableEq

/-- `CachedTemplate` alias from `template_cache.rs`. -/
def CachedTemplate (τ : Type) := BinXMLTemplateDefinition τ

/-- `TemplateCache` from `template_cache.rs`: the `HashMap<Offset,
CachedTemplate>` modelled as an association list in which the most
recent insertion is found first (so `insert` overwrites as the hash map
does). -/
def TemplateCache (τ : Type) := List (Nat × BinXMLTemplateDefinition τ)

/-- `TemplateCache::new`. -/
def TemplateCache.new (τ : Type) : TemplateCache τ := []

/-- `TemplateCache::put_template`: `HashMap::insert`, i.e. the new
binding shadows any previous binding at the same offset. -/
def TemplateCache.put_template {τ : Type} (c : TemplateCache τ) (offset : Nat)
    (template : BinXMLTemplateDefinition τ) : TemplateCache τ :=
  (offset, template) :: c

/-- `TemplateCache::get_template_data_offset`: look the offset up and
project the cached definition's `data_size`. -/
def TemplateCache.get_template_data_offset {τ : Type} (c : TemplateCache τ)
    (offset : Nat) : Option Nat :=
  (List.lookup offset c).map (fun template_def => template_def.data_size)

/-- Loop body of `TemplateCache::populate`: walk the (already filtered)
offsets in order; at each one invoke `decode` (the external
`read_template_definition`, given as an oracle) and insert the result,
propagating the first decode failure.  The second component of the
result records, in order, every offset at which `decode` was invoked, so
that the number of decode calls is observable. -/
def TemplateCache.populateGo {τ ε : Type} (decode : Nat → Except ε (BinXMLTemplateDefinition τ)) :
    List Nat → TemplateCache τ → List Nat → Except ε (TemplateCache τ × List Nat)
  | [], cache, calls => Except.ok (cache, calls)
  | offset :: rest, cache, calls =>
      match decode offset with
      | Except.error e => Except.error e
      | Except.ok definition =>
          TemplateCache.populateGo decode rest (cache.put_template offset definition)
            (calls ++ [offset])

/-- `TemplateCache::populate`: iterate over the offsets, keeping only
those `> 0`, decode a template definition at each and insert it.
`decode` stands for the external `read_template_definition` applied to a
cursor seeked to the offset (that routine is outside the provided core);
the returned trace lists the offsets at which it was called. -/
def TemplateCache.populate {τ ε : Type} (offsets : List Nat)
    (decode : Nat → Except ε (BinXMLTemplateDefinition τ)) :
    Except ε (TemplateCache τ × List Nat) :=
  TemplateCache.populateGo decode (offsets.filter (fun offset => decide (0 < offset)))
    (TemplateCache.new τ) []

/-- Modelled from the spec: `EvtxRecordHeader` (`evtx_record.rs` is
outside the provided core): per-record magic, declared total
`data_size`, `event_record_id` and `timestamp`; the magic is checked by
its parser, so a successfully parsed header is represented by the three
remaining fields. -/
structure EvtxRecordHeader where
  data_size : Nat
  event_record_id : Nat
  timestamp : Nat
  deriving Repr, DecidableEq

/-- Modelled from the spec: the fixed record header is 24 bytes (magic +
`data_size` + `event_record_id` + `timestamp`), the cursor position
after a successful `EvtxRecordHeader::from_reader`. -/
def EVTX_RECORD_HEADER_SIZE : Nat := 24

/-- Modelled from the spec: `EvtxRecordHeader::record_data_size` — the
BinXML payload length, the declared total size minus the fixed
header/trailer overhead (24 header bytes plus the 4-byte trailing size
copy). -/
def EvtxRecordHeader.record_data_size (h : EvtxRecordHeader) : Nat :=
  h.data_size - (EVTX_RECORD_HEADER_SIZE + 4)

/-- `EvtxRecord` from `evtx_record.rs` as yielded by the iterator: the
record id, timestamp and decoded token sequence (the pass-through
`settings` handle carries no decoded data and is omitted). -/
structure EvtxRecord (τ : Type) where
  event_record_id : Nat
  timestamp : Nat
  tokens : List τ
  deriving Repr, DecidableEq

/-- The error values `IterChunkRecords::next` can yield: a record-header
parse error passed through unchanged, or a deserialization error wrapped
with the offending record's id (`err::FailedToDeserializeRecord`). -/
inductive RecordIterError (ε : Type) where
  | headerError (e : ε) : RecordIterError ε
  | failedToDeserializeRecord (record_id : Nat) (e : ε) : RecordIterError ε
  deriving Repr, DecidableEq

/-- Modelled from the spec: the external collaborators consumed by
`IterChunkRecords::next` — `EvtxRecordHeader::from_reader` as a function
of the cursor position (offset from chunk start), and
`BinXmlDeserializer::init` + `iter_tokens` as a function of the start
offset and the byte bound, returning either an initialization failure or
the sequence of per-token results the token iterator produces. -/
structure BinXmlEnv (τ ε : Type) where
  readRecordHeader : Nat → Except ε EvtxRecordHeader
  iterTokens : Nat → Nat → Except ε (List (Except ε τ))

/-- The `for token in iter` loop of `IterChunkRecords::next`: push
successfully decoded tokens, stopping at the first failure. -/
def collectTokens {τ ε : Type} : List (Except ε τ) → Except ε (List τ)
  | [] => Except.ok []
  | Except.error e :: _ => Except.error e
  | Except.ok t :: rest => (collectTokens rest).map (fun ts => t :: ts)

/-- The mutable state of `IterChunkRecords` (the chunk reference and the
settings handle are immutable and passed separately). -/
structure IterChunkRecords where
  offset_from_chunk_start : Nat
  exhausted : Bool
  deriving Repr, DecidableEq

/-- `IterChunkRecords::next` (`Iterator::next` in `evtx_chunk.rs`),
returning the yielded item (if any) together with the successor state:

1. when exhausted or at/past `free_space_offset`, yield nothing;
2. parse the record header at the cursor; on failure set `exhausted`
   and yield the error;
3. build the token iterator; on failure yield the wrapped error without
   touching the state;
4. drain the token iterator; on a token failure advance the cursor by
   the record's declared `data_size` and yield the wrapped error;
5. on success advance by `data_size`, set `exhausted` when this record's
   id equals the header's `last_event_record_id`, and yield the record. -/
def IterChunkRecords.next {τ ε : Type} (env : BinXmlEnv τ ε) (hdr : EvtxChunkHeader)
    (s : IterChunkRecords) :
    Option (Except (RecordIterError ε) (EvtxRecord τ)) × IterChunkRecords :=
  if s.exhausted = true ∨ hdr.free_space_offset ≤ s.offset_from_chunk_start then
    (none, s)
  else
    match env.readRecordHeader s.offset_from_chunk_start with
    | Except.error e =>
        (some (Except.error (RecordIterError.headerError e)), { s with exhausted := true })
    | Except.ok record_header =>
        let binxml_data_size := record_header.record_data_size
        match env.iterTokens (s.offset_from_chunk_start + EVTX_RECORD_HEADER_SIZE)
            binxml_data_size with
        | Except.error e =>
            (some (Except.error
                (RecordIterError.failedToDeserializeRecord record_header.event_record_id e)),
              s)
        | Except.ok results =>
            match collectTokens results with
            | Except.error e =>
                (some (Except.error
                    (RecordIterError.failedToDeserializeRecord record_header.event_record_id e)),
                  { s with offset_from_chunk_start :=
                      s.offset_from_chunk_start + record_header.data_size })
            | Except.ok tokens =>
                let s1 : IterChunkRecords :=
                  { s with offset_from_chunk_start :=
                      s.offset_from_chunk_start + record_header.data_size }
                let s2 : IterChunkRecords :=
                  if hdr.last_event_record_id = record_header.event_record_id then
                    { s1 with exhausted := true }
                  else s1
                (some (Except.ok
                    { event_record_id := record_header.event_record_id
                      timestamp := record_header.timestamp
                      tokens := tokens }),
                  s2)

/-- Iterate `next` `n` times, keeping only the final state. -/
def IterChunkRecords.stepN {τ ε : Type} (env : BinXmlEnv τ ε) (hdr : EvtxChunkHeader)
    (s : IterChunkRecords) : Nat → IterChunkRecords
  | 0 => s
  | n + 1 => IterChunkRecords.stepN env hdr (IterChunkRecords.next env hdr s).2 n

/-- Concrete chunk header used to exercise the iterator theorems. -/
def hdrW : EvtxChunkHeader :=
  { first_event_record_number := 1
    last_event_record_number := 3
    first_event_record_id := 1
    last_event_record_id := 42
    header_size := 128
    last_event_record_data_offset := 512
    free_space_offset := 1024
    events_checksum := 0
    header_chunk_checksum := 0
    strings_offsets := []
    template_offsets := [] }

/-- Concrete iterator state at the start of the event-data region. -/
def sW : IterChunkRecords := { offset_from_chunk_start := 512, exhausted := false }

/-- Concrete record header: `data_size` 100, record id 42, timestamp 9. -/
def rhW : EvtxRecordHeader := { data_size := 100, event_record_id := 42, timestamp := 9 }

/-- Environment whose token stream fails partway through. -/
def envTokenErrW : BinXmlEnv Nat Nat :=
  { readRecordHeader := fun _ => Except.ok rhW
    iterTokens := fun _ _ => Except.ok [Except.ok 1, Except.error 7] }

/-- Environment whose record-header parse fails. -/
def envHeaderErrW : BinXmlEnv Nat Nat :=
  { readRecordHeader := fun _ => Except.error 3
    iterTokens := fun _ _ => Except.ok [] }

/-- Environment whose token-iterator construction fails. -/
def envInitErrW : BinXmlEnv Nat Nat :=
  { readRecordHeader := fun _ => Except.ok rhW
    iterTokens := fun _ _ => Except.error 5 }

/-- Environment that decodes every record successfully. -/
def envOkW : BinXmlEnv Nat Nat :=
  { readRecordHeader := fun _ => Except.ok rhW
    iterTokens := fun _ _ => Except.ok [Except.ok 1, Except.ok 2] }

/-- A concrete template definition with `data_size` 10. -/
def defA : BinXMLTemplateDefinition Nat :=
  { next_template_offset := 0, template_guid := 0, data_size := 10, tokens := [] }

/-- A concrete template definition with `data_size` 20. -/
def defB : BinXMLTemplateDefinition Nat :=
  { next_template_offset := 0, template_guid := 0, data_size := 20, tokens := [] }

/-- A 32-slot template-offset table in which the nonzero offset 5
occupies two slots. -/
def offsetsDupW : List Nat := [5, 5] ++ List.replicate 30 0

/-- A decode oracle that always succeeds with `defA`. -/
def decodeConstW : Nat → Except Nat (BinXMLTemplateDefinition Nat) :=
  fun _ => Except.ok defA

/-- A successful decode oracle whose definition at offset `o` has
`data_size` `o`. -/
def fTmplW : Nat → BinXMLTemplateDefinition Nat :=
  fun o => { next_template_offset := 0, template_guid := 0, data_size := o, tokens := [] }

/-- A concrete 512-byte all-zero chunk under the fixture header. -/
def cW6 : EvtxChunkData := { header := hdrW, data := List.replicate 512 0 }

/-- A concrete 128-byte buffer, all zero. -/
def dW1 : List Nat := List.replicate 128 0

/-- The same buffer with only bytes [120,128) changed. -/
def dW2 : List Nat := List.replicate 120 0 ++ List.replicate 8 1

/-- A concrete chunk whose `free_space_offset` is exactly 512. -/
def cW7 : EvtxChunkData :=
  { header := { hdrW with free_space_offset := 512 }, data := List.replicate 512 0 }

/-- The fixture header with only `first_event_record_number` changed. -/
def hdrW9 : EvtxChunkHeader := { hdrW with first_event_record_number := 999 }

/-- A chunk with the changed header over the same bytes as `cW6`. -/
def cW9 : EvtxChunkData := { header := hdrW9, data := List.replicate 512 0 }

theorem IterChunkRecords.next_of_done {τ ε : Type} (env : BinXmlEnv τ ε)
    (hdr : EvtxChunkHeader) (s : IterChunkRecords)
    (h : s.exhausted = true ∨ hdr.free_space_offset ≤ s.offset_from_chunk_start) :
    IterChunkRecords.next env hdr s = (none, s) := by
  unfold IterChunkRecords.next
  rw [if_pos h]

theorem IterChunkRecords.stepN_of_exhausted {τ ε : Type} (env : BinXmlEnv τ ε)
    (hdr : EvtxChunkHeader) (s : IterChunkRecords) (hs : s.exhausted = true) :
    ∀ n, IterChunkRecords.stepN env hdr s n = s := by
  intro n
  induction n with
  | zero => rfl
  | succ n ih =>
      unfold IterChunkRecords.stepN
      rw [IterChunkRecords.next_of_done env hdr s (Or.inl hs)]
      exact ih

theorem IterChunkRecords.none_forever_of_exhausted {τ ε : Type} (env : BinXmlEnv τ ε)
    (hdr : EvtxChunkHeader) (s : IterChunkRecords) (hs : s.exhausted = true) :
    ∀ n, (IterChunkRecords.next env hdr (IterChunkRecords.stepN env hdr s n)).1 = none := by
  intro n
  rw [IterChunkRecords.stepN_of_exhausted env hdr s hs n,
    IterChunkRecords.next_of_done env hdr s (Or.inl hs)]

/-- C1: in the Active state, when the record header parses but the token
stream fails partway, `next` advances the cursor by exactly the record's
declared `data_size`, yields the error wrapped with that record's id,
and keeps the iterator Active, so the next call starts at the next
record's offset. -/
theorem c1_payload_error_is_recoverable {τ ε : Type} (env : BinXmlEnv τ ε)
    (hdr : EvtxChunkHeader) (s : IterChunkRecords) (rh : EvtxRecordHeader)
    (results : List (Except ε τ)) (e : ε)
    (hact : s.exhausted = false)
    (hoff : s.offset_from_chunk_start < hdr.free_space_offset)
    (hhdr : env.readRecordHeader s.offset_from_chunk_start = Except.ok rh)
    (hiter : env.iterTokens (s.offset_from_chunk_start + EVTX_RECORD_HEADER_SIZE)
        rh.record_data_size = Except.ok results)
    (htok : collectTokens results = Except.error e) :
    IterChunkRecords.next env hdr s =
      (some (Except.error (RecordIterError.failedToDeserializeRecord rh.event_record_id e)),
        { offset_from_chunk_start := s.offset_from_chunk_start + rh.data_size
          exhausted := false }) := by
  obtain ⟨off, ex⟩ := s
  simp only [IterChunkRecords] at hact hoff hhdr hiter
  subst hact
  unfold IterChunkRecords.next
  rw [if_neg (by simp only [Bool.false_eq_true, false_or, Nat.not_le]; exact hoff)]
  simp only [hhdr, hiter, htok]

/-- C1 witness: the theorem instantiated at a concrete environment. -/
theorem c1_witness :
    IterChunkRecords.next envTokenErrW hdrW sW =
      (some (Except.error (RecordIterError.failedToDeserializeRecord 42 7)),
        { offset_from_chunk_start := 612, exhausted := false }) :=
  c1_payload_error_is_recoverable envTokenErrW hdrW sW rhW
    [Except.ok 1, Except.error 7] 7 rfl (by decide) rfl rfl rfl

/-- C2: in the Active state, a record-header parse failure makes `next`
yield that single error while setting `exhausted`, and every subsequent
call yields nothing. -/
theorem c2_header_error_is_fatal {τ ε : Type} (env : BinXmlEnv τ ε)
    (hdr : EvtxChunkHeader) (s : IterChunkRecords) (e : ε)
    (hact : s.exhausted = false)
    (hoff : s.offset_from_chunk_start < hdr.free_space_offset)
    (hhdr : env.readRecordHeader s.offset_from_chunk_start = Except.error e) :
    IterChunkRecords.next env hdr s =
      (some (Except.error (RecordIterError.headerError e)),
        { offset_from_chunk_start := s.offset_from_chunk_start, exhausted := true })
    ∧ ∀ n, (IterChunkRecords.next env hdr (IterChunkRecords.stepN env hdr
        { offset_from_chunk_start := s.offset_from_chunk_start, exhausted := true } n)).1
        = none := by
  constructor
  · obtain ⟨off, ex⟩ := s
    simp only [IterChunkRecords] at hact hoff hhdr
    subst hact
    unfold IterChunkRecords.next
    rw [if_neg (by simp only [Bool.false_eq_true, false_or, Nat.not_le]; exact hoff)]
    simp only [hhdr]
  · exact IterChunkRecords.none_forever_of_exhausted env hdr _ rfl

/-- C2 witness: the theorem instantiated at a concrete environment. -/
theorem c2_witness :
    IterChunkRecords.next envHeaderErrW hdrW sW =
      (some (Except.error (RecordIterError.headerError 3)),
        { offset_from_chunk_start := 512, exhausted := true })
    ∧ ∀ n, (IterChunkRecords.next envHeaderErrW hdrW (IterChunkRecords.stepN envHeaderErrW
        hdrW { offset_from_chunk_start := 512, exhausted := true } n)).1 = none :=
  c2_header_error_is_fatal envHeaderErrW hdrW sW 3 rfl (by decide) rfl

/-- C10: in the Active state, when the record header parses but the
token-iterator construction itself fails, `next` yields the wrapped
error with the iterator state completely unchanged, so the following
call re-attempts the same record at the same offset. -/
theorem c10_iter_init_error_leaves_state {τ ε : Type} (env : BinXmlEnv τ ε)
    (hdr : EvtxChunkHeader) (s : IterChunkRecords) (rh : EvtxRecordHeader) (e : ε)
    (hact : s.exhausted = false)
    (hoff : s.offset_from_chunk_start < hdr.free_space_offset)
    (hhdr : env.readRecordHeader s.offset_from_chunk_start = Except.ok rh)
    (hiter : env.iterTokens (s.offset_from_chunk_start + EVTX_RECORD_HEADER_SIZE)
        rh.record_data_size = Except.error e) :
    IterChunkRecords.next env hdr s =
      (some (Except.error (RecordIterError.failedToDeserializeRecord rh.event_record_id e)),
        s) := by
  obtain ⟨off, ex⟩ := s
  simp only [IterChunkRecords] at hact hoff hhdr hiter
  subst hact
  unfold IterChunkRecords.next
  rw [if_neg (by simp only [Bool.false_eq_true, false_or, Nat.not_le]; exact hoff)]
  simp only [hhdr, hiter]

/-- C10 witness: the theorem instantiated at a concrete environment. -/
theorem c10_witness :
    IterChunkRecords.next envInitErrW hdrW sW =
      (some (Except.error (RecordIterError.failedToDeserializeRecord 42 5)), sW) :=
  c10_iter_init_error_leaves_state envInitErrW hdrW sW rhW 5 rfl (by decide) rfl rfl

/-- C3: `next` yields nothing when the iterator is Exhausted or the
cursor reached `free_space_offset`; a fully successful decode yields the
record, advances by `data_size`, and exhausts the iterator exactly when
the record's id equals the header's `last_event_record_id` — in the
equal case every later call yields nothing even though bytes may remain
before `free_space_offset`, in the unequal case the iterator stays
Active. -/
theorem c3_last_event_record_id_is_authoritative {τ ε : Type} (env : BinXmlEnv τ ε)
    (hdr : EvtxChunkHeader) :
    (∀ s : IterChunkRecords,
      s.exhausted = true ∨ hdr.free_space_offset ≤ s.offset_from_chunk_start →
      IterChunkRecords.next env hdr s = (none, s))
    ∧ (∀ (s : IterChunkRecords) (rh : EvtxRecordHeader) (results : List (Except ε τ))
        (tokens : List τ),
        s.exhausted = false →
        s.offset_from_chunk_start < hdr.free_space_offset →
        env.readRecordHeader s.offset_from_chunk_start = Except.ok rh →
        env.iterTokens (s.offset_from_chunk_start + EVTX_RECORD_HEADER_SIZE)
          rh.record_data_size = Except.ok results →
        collectTokens results = Except.ok tokens →
        (IterChunkRecords.next env hdr s).1 =
          some (Except.ok { event_record_id := rh.event_record_id
                            timestamp := rh.timestamp, tokens := tokens })
        ∧ (rh.event_record_id = hdr.last_event_record_id →
            (IterChunkRecords.next env hdr s).2 =
              { offset_from_chunk_start := s.offset_from_chunk_start + rh.data_size
                exhausted := true }
            ∧ ∀ n, (IterChunkRecords.next env hdr (IterChunkRecords.stepN env hdr
                { offset_from_chunk_start := s.offset_from_chunk_start + rh.data_size
                  exhausted := true } n)).1 = none)
        ∧ (rh.event_record_id ≠ hdr.last_event_record_id →
            (IterChunkRecords.next env hdr s).2 =
              { offset_from_chunk_start := s.offset_from_chunk_start + rh.data_size
                exhausted := false })) := by
  constructor
  · exact fun s h => IterChunkRecords.next_of_done env hdr s h
  · intro s rh results tokens hact hoff hhdr hiter htok
    obtain ⟨off, ex⟩ := s
    simp only [IterChunkRecords] at hact hoff hhdr hiter
    subst hact
    have hnext : IterChunkRecords.next env hdr ⟨off, false⟩ =
        (some (Except.ok { event_record_id := rh.event_record_id
                           timestamp := rh.timestamp, tokens := tokens }),
          if hdr.last_event_record_id = rh.event_record_id then
            { offset_from_chunk_start := off + rh.data_size, exhausted := true }
          else { offset_from_chunk_start := off + rh.data_size, exhausted := false }) := by
      unfold IterChunkRecords.next
      rw [if_neg (by simp only [Bool.false_eq_true, false_or, Nat.not_le]; exact hoff)]
      simp only [hhdr, hiter, htok]
    refine ⟨by rw [hnext], fun heq => ?_, fun hne => ?_⟩
    · rw [hnext, if_pos heq.symm]
      exact ⟨rfl, IterChunkRecords.none_forever_of_exhausted env hdr _ rfl⟩
    · rw [hnext, if_neg (Ne.symm hne)]

/-- C3 witness: the theorem instantiated at a concrete environment in
which the decoded record's id equals `last_event_record_id` while bytes
remain before `free_space_offset`. -/
theorem c3_witness :
    IterChunkRecords.next envOkW hdrW { offset_from_chunk_start := 512, exhausted := true }
      = (none, { offset_from_chunk_start := 512, exhausted := true })
    ∧ (IterChunkRecords.next envOkW hdrW sW).1 =
        some (Except.ok { event_record_id := 42, timestamp := 9, tokens := [1, 2] })
    ∧ (IterChunkRecords.next envOkW hdrW sW).2 =
        { offset_from_chunk_start := 612, exhausted := true }
    ∧ ∀ n, (IterChunkRecords.next envOkW hdrW (IterChunkRecords.stepN envOkW hdrW
        { offset_from_chunk_start := 612, exhausted := true } n)).1 = none := by
  have h := c3_last_event_record_id_is_authoritative (τ := Nat) (ε := Nat) envOkW hdrW
  have h2 := h.2 sW rhW [Except.ok 1, Except.ok 2] [1, 2] rfl (by decide) rfl rfl rfl
  exact ⟨h.1 _ (Or.inl rfl), h2.1, (h2.2.1 rfl).1, (h2.2.1 rfl).2⟩

theorem TemplateCache.lookup_put_template {τ : Type} (c : TemplateCache τ)
    (offset o : Nat) (t : BinXMLTemplateDefinition τ) :
    List.lookup o (c.put_template offset t) =
      if o = offset then some t else List.lookup o c := by
  by_cases h : o = offset
  · subst h
    simp [TemplateCache.put_template, List.lookup]
  · have hb : (o == offset) = false := by simpa using h
    simp [TemplateCache.put_template, List.lookup, hb, h]

theorem TemplateCache.populateGo_ok {τ ε : Type}
    (f : Nat → BinXMLTemplateDefinition τ) :
    ∀ (l : List Nat) (cache : TemplateCache τ) (calls : List Nat),
      TemplateCache.populateGo (ε := ε) (fun o => Except.ok (f o)) l cache calls =
        Except.ok
          (l.foldl (fun c o => TemplateCache.put_template c o (f o)) cache, calls ++ l) := by
  intro l
  induction l with
  | nil => intro cache calls; simp [TemplateCache.populateGo]
  | cons o rest ih =>
      intro cache calls
      simp [TemplateCache.populateGo, ih]

theorem TemplateCache.lookup_foldl_put {τ : Type}
    (f : Nat → BinXMLTemplateDefinition τ) :
    ∀ (l : List Nat) (cache : TemplateCache τ) (offset : Nat),
      List.lookup offset (l.foldl (fun c o => TemplateCache.put_template c o (f o)) cache) =
        if offset ∈ l then some (f offset) else List.lookup offset cache := by
  intro l
  induction l with
  | nil => intro cache offset; simp
  | cons o rest ih =>
      intro cache offset
      rw [List.foldl_cons, ih]
      by_cases heq : offset = o
      · subst heq
        by_cases hmem : offset ∈ rest
        · simp [hmem]
        · simp [hmem, TemplateCache.lookup_put_template]
      · by_cases hmem : offset ∈ rest
        · simp [hmem, heq]
        · simp [hmem, heq, TemplateCache.lookup_put_template]

/-- C4 counterexample: after an entry with `data_size` 10 is stored at
offset 5, a later `put_template` at offset 5 replaces it, so
`get_template_data_offset` no longer returns the first write's
`data_size`. -/
theorem c4_counterexample :
    TemplateCache.get_template_data_offset
        (TemplateCache.put_template
          (TemplateCache.put_template (TemplateCache.new Nat) 5 defA) 5 defB) 5
      ≠ some defA.data_size := by
  decide

/-- C4 (amended): `put_template` is `HashMap::insert`, which overwrites:
after a `put_template` at an offset, `get_template_data_offset` at that
offset returns the `data_size` of the definition just stored — i.e. of
the most recent write, not of the first one. -/
theorem c4_put_template_overwrites {τ : Type} (c : TemplateCache τ) (offset : Nat)
    (t : BinXMLTemplateDefinition τ) :
    TemplateCache.get_template_data_offset (c.put_template offset t) offset =
      some t.data_size := by
  simp [TemplateCache.get_template_data_offset, TemplateCache.lookup_put_template]

/-- C4 witness: the amended theorem instantiated at a cache that already
holds an entry at offset 5. -/
theorem c4_witness :
    TemplateCache.get_template_data_offset
        (TemplateCache.put_template
          (TemplateCache.put_template (TemplateCache.new Nat) 5 defA) 5 defB) 5
      = some defB.data_size :=
  c4_put_template_overwrites (TemplateCache.put_template (TemplateCache.new Nat) 5 defA) 5 defB

/-- C8 counterexample: on a 32-slot table in which the nonzero offset 5
occupies two slots, `populate` invokes the decode routine twice at
offset 5 (the recorded call trace is `[5, 5]`), not exactly once per
distinct nonzero offset. -/
theorem c8_counterexample :
    TemplateCache.populate offsetsDupW decodeConstW =
      Except.ok (([(5, defA), (5, defA)] : TemplateCache Nat), [5, 5])
    ∧ List.count 5 [5, 5] ≠ 1 := by
  exact ⟨rfl, by decide⟩

/-- C8 (amended): `populate` invokes the external decode routine once
per nonzero slot occurrence in table order (an offset occupying several
slots is decoded once per slot), skips every zero slot, and — when all
decodes succeed — produces a cache mapping each nonzero offset of the
table to the definition decoded at it. -/
theorem c8_populate_decodes_per_occurrence {τ ε : Type} (offsets : List Nat)
    (f : Nat → BinXMLTemplateDefinition τ) :
    (TemplateCache.populate (ε := ε) offsets (fun o => Except.ok (f o))).map
        (fun r => r.2) = Except.ok (offsets.filter (fun o => decide (0 < o)))
    ∧ ∀ offset : Nat, 0 < offset → offset ∈ offsets →
        (TemplateCache.populate (ε := ε) offsets (fun o => Except.ok (f o))).map
          (fun r => List.lookup offset r.1) = Except.ok (some (f offset)) := by
  constructor
  · rw [TemplateCache.populate, TemplateCache.populateGo_ok]
    rfl
  · intro offset hpos hmem
    rw [TemplateCache.populate, TemplateCache.populateGo_ok]
    have hl : List.lookup offset
        ((offsets.filter (fun o => decide (0 < o))).foldl
          (fun c o => TemplateCache.put_template c o (f o)) (TemplateCache.new τ)) =
        some (f offset) := by
      rw [TemplateCache.lookup_foldl_put,
        if_pos (List.mem_filter.mpr ⟨hmem, by simpa using hpos⟩)]
    simp only [Except.map]
    exact congrArg Except.ok hl

/-- C8 witness: the amended theorem instantiated at the table `[7, 0]`
with a concrete successful decode oracle. -/
theorem c8_witness :
    (TemplateCache.populate (ε := Nat) [7, 0] (fun o => Except.ok (fTmplW o))).map
        (fun r => List.lookup 7 r.1) = Except.ok (some (fTmplW 7)) :=
  (c8_populate_decodes_per_occurrence [7, 0] fTmplW).2 7 (by decide) (by decide)

theorem byteRange_eq_drop_take (d : List Nat) (lo hi : Nat) (h1 : lo ≤ hi)
    (h2 : hi ≤ d.length) : byteRange d lo hi = (d.take hi).drop lo := by
  apply List.ext_getElem
  · simp only [byteRange, List.length_map, List.length_range', List.length_drop,
      List.length_take]
    omega
  · intro n hn1 hn2
    have hn : n < hi - lo := by
      simpa only [byteRange, List.length_map, List.length_range'] using hn1
    simp only [byteRange, List.getElem_map, List.getElem_range', Nat.one_mul]
    rw [List.getElem_drop, List.getElem_take]
    exact List.getD_eq_getElem d 0 (by omega)

theorem from_reader_invalidMagic_iff (d : List Nat) (h8 : 8 ≤ d.length) :
    (∃ m, EvtxChunkHeader.from_reader d = Except.error (ChunkError.invalidMagic m)) ↔
      d.take 8 ≠ evtxChunkMagic := by
  unfold EvtxChunkHeader.from_reader
  rw [if_neg (by omega)]
  by_cases hmag : d.take 8 = evtxChunkMagic
  · rw [if_neg (by simpa using hmag)]
    constructor
    · rintro ⟨m, hm⟩
      by_cases hlen : d.length < EVTX_CHUNK_HEADER_SIZE
      · rw [if_pos hlen] at hm
        simp at hm
      · rw [if_neg hlen] at hm
        simp at hm
    · intro h
      exact absurd hmag h
  · rw [if_pos hmag]
    exact ⟨fun _ => hmag, fun _ => ⟨d.take 8, rfl⟩⟩

/-- C5: chunk construction fails with the invalid-magic error exactly
when the first 8 bytes differ from ASCII `ElfChnk` plus a NUL byte; the
check runs whatever the `validate_checksum` flag is, so it cannot be
disabled. -/
theorem c5_magic_check_unconditional (data : List Nat) (b : Bool)
    (h8 : 8 ≤ data.length) :
    (∃ m, EvtxChunkData.new data b = Except.error (ChunkError.invalidMagic m)) ↔
      data.take 8 ≠ evtxChunkMagic := by
  rw [← from_reader_invalidMagic_iff data h8]
  cases hfr : EvtxChunkHeader.from_reader data with
  | error e =>
      have hnew : EvtxChunkData.new data b = Except.error e := by
        unfold EvtxChunkData.new
        rw [hfr]
      rw [hnew]
      constructor
      · rintro ⟨m, hm⟩
        simp only [Except.error.injEq] at hm
        exact ⟨m, by rw [hm]⟩
      · rintro ⟨m, hm⟩
        simp only [Except.error.injEq] at hm
        exact ⟨m, by rw [hm]⟩
  | ok header =>
      have hnew : EvtxChunkData.new data b =
          if b && !(EvtxChunkData.validate_checksum { header := header, data := data }) then
            Except.error ChunkError.invalidChunkChecksum
          else Except.ok { header := header, data := data } := by
        unfold EvtxChunkData.new
        rw [hfr]
      rw [hnew]
      constructor
      · rintro ⟨m, hm⟩
        split at hm <;> simp at hm
      · rintro ⟨m, hm⟩
        simp at hm

/-- C5 witness: a buffer of eight zero bytes is rejected with the
invalid-magic error even though checksum validation is requested. -/
theorem c5_witness :
    ∃ m, EvtxChunkData.new (List.replicate 8 0) true =
      Except.error (ChunkError.invalidMagic m) :=
  (c5_magic_check_unconditional (List.replicate 8 0) true (by decide)).mpr (by decide)

/-- C6: `validate_header_checksum` compares the IEEE CRC32 of bytes
`[0,120) ++ [128,512)` with `header_chunk_checksum`, so buffers that
agree outside the window `[120,128)` produce the same computed checksum
and validate identically under any header. -/
theorem c6_header_checksum_skips_checksum_field (c : EvtxChunkData) (d1 d2 : List Nat)
    (hlen : 512 ≤ c.data.length)
    (ht : d1.take 120 = d2.take 120) (hd : d1.drop 128 = d2.drop 128) :
    (c.validate_header_checksum = true ↔
      crc32_ieee (byteRange c.data 0 120 ++ byteRange c.data 128 512) =
        c.header.header_chunk_checksum)
    ∧ ∀ hdr : EvtxChunkHeader,
        EvtxChunkData.validate_header_checksum { header := hdr, data := d1 } =
          EvtxChunkData.validate_header_checksum { header := hdr, data := d2 } := by
  constructor
  · rw [EvtxChunkData.validate_header_checksum,
      byteRange_eq_drop_take c.data 0 120 (by omega) (by omega),
      byteRange_eq_drop_take c.data 128 512 (by omega) hlen]
    simp [beq_iff_eq]
  · intro hdr
    have hcore : d1.take 120 ++ (d1.take 512).drop 128 =
        d2.take 120 ++ (d2.take 512).drop 128 := by
      calc d1.take 120 ++ (d1.take 512).drop 128
          = d2.take 120 ++ (d2.drop 128).take (512 - 128) := by
            rw [ht, List.drop_take, hd]
        _ = d2.take 120 ++ (d2.take 512).drop 128 := by rw [List.drop_take]
    simp only [EvtxChunkData.validate_header_checksum, hcore]

set_option maxRecDepth 4000 in
/-- C6 witness: the theorem instantiated at a 512-byte chunk and two
buffers that differ exactly in bytes [120,128). -/
theorem c6_witness :
    (cW6.validate_header_checksum = true ↔
      crc32_ieee (byteRange cW6.data 0 120 ++ byteRange cW6.data 128 512) =
        cW6.header.header_chunk_checksum)
    ∧ ∀ hdr : EvtxChunkHeader,
        EvtxChunkData.validate_header_checksum { header := hdr, data := dW1 } =
          EvtxChunkData.validate_header_checksum { header := hdr, data := dW2 } :=
  c6_header_checksum_skips_checksum_field cW6 dW1 dW2 (by decide) (by decide) (by decide)

/-- C7: `validate_data_checksum` compares the IEEE CRC32 of exactly the
bytes `[512, free_space_offset)` with `events_checksum`, and
`validate_checksum` is true iff both the header check and the data
check pass. -/
theorem c7_data_checksum_range (c : EvtxChunkData)
    (h1 : 512 ≤ c.header.free_space_offset)
    (h2 : c.header.free_space_offset ≤ c.data.length) :
    (c.validate_data_checksum = true ↔
      crc32_ieee (byteRange c.data 512 c.header.free_space_offset) =
        c.header.events_checksum)
    ∧ (c.validate_checksum = true ↔
        c.validate_header_checksum = true ∧ c.validate_data_checksum = true) := by
  constructor
  · rw [EvtxChunkData.validate_data_checksum,
      byteRange_eq_drop_take c.data 512 c.header.free_space_offset h1 h2]
    simp [EVTX_CHUNK_HEADER_SIZE, beq_iff_eq]
  · simp [EvtxChunkData.validate_checksum, Bool.and_eq_true]

set_option maxRecDepth 4000 in
/-- C7 witness: the theorem instantiated at a chunk whose
`free_space_offset` is 512 over a 512-byte buffer. -/
theorem c7_witness :
    (cW7.validate_data_checksum = true ↔
      crc32_ieee (byteRange cW7.data 512 cW7.header.free_space_offset) =
        cW7.header.events_checksum)
    ∧ (cW7.validate_checksum = true ↔
        cW7.validate_header_checksum = true ∧ cW7.validate_data_checksum = true) :=
  c7_data_checksum_range cW7 (by decide) (by decide)

/-- C9: the checksum validators mutate nothing — their state-passing
views return the receiver unchanged together with the pure result — and
they are functions of already-parsed state only: two chunks with the
same bytes and the same parsed `events_checksum`, `free_space_offset`
and `header_chunk_checksum` fields validate identically, whatever their
other header fields hold. -/
theorem c9_checksum_validation_is_pure (c c' : EvtxChunkData)
    (hd : c.data = c'.data)
    (he : c.header.events_checksum = c'.header.events_checksum)
    (hf : c.header.free_space_offset = c'.header.free_space_offset)
    (hh : c.header.header_chunk_checksum = c'.header.header_chunk_checksum) :
    (EvtxChunkData.validate_checksumSt c = (c.validate_checksum, c)
      ∧ EvtxChunkData.validate_header_checksumSt c = (c.validate_header_checksum, c)
      ∧ EvtxChunkData.validate_data_checksumSt c = (c.validate_data_checksum, c))
    ∧ (c.validate_checksum = c'.validate_checksum
      ∧ c.validate_header_checksum = c'.validate_header_checksum
      ∧ c.validate_data_checksum = c'.validate_data_checksum) := by
  have hhb : c.validate_header_checksum = c'.validate_header_checksum := by
    simp only [EvtxChunkData.validate_header_checksum, hd, hh]
  have hdb : c.validate_data_checksum = c'.validate_data_checksum := by
    simp only [EvtxChunkData.validate_data_checksum, hd, he, hf]
  exact ⟨⟨rfl, rfl, rfl⟩,
    by simp only [EvtxChunkData.validate_checksum, hhb, hdb], hhb, hdb⟩

/-- C9 witness: the theorem instantiated at two chunks over the same
bytes whose headers differ only in `first_event_record_number`. -/
theorem c9_witness :
    (EvtxChunkData.validate_checksumSt cW6 = (cW6.validate_checksum, cW6)
      ∧ EvtxChunkData.validate_header_checksumSt cW6 = (cW6.validate_header_checksum, cW6)
      ∧ EvtxChunkData.validate_data_checksumSt cW6 = (cW6.validate_data_checksum, cW6))
    ∧ (cW6.validate_checksum = cW9.validate_checksum
      ∧ cW6.validate_header_checksum = cW9.validate_header_checksum
      ∧ cW6.validate_data_checksum = cW9.validate_data_checksum) :=
  c9_checksum_validation_is_pure cW6 cW9 rfl rfl rfl rfl

end Evtx
